import Mathlib

/-!
# Verification of the live sentiment dashboard core (`src/app.py`)

A shallow embedding of the reusable core of the dashboard: the text
normalizer `preprocess_text`, the two-bucket sentiment classifier
`analyze_sentiment`, the session-scoped aggregation store (append-only
record log with counts and clear), and the rolling-average smoothing of
the sentiment trend.

Conventions of the embedding:
* Python strings are Lean `String`s; the regex substitutions of
  `preprocess_text` are implemented as left-to-right scanners over the
  character list, reproducing `re.sub` semantics for the four concrete
  patterns appearing in the source.
* The float polarity score is modelled as a rational number `ℚ`; the
  only operations the program performs on it are comparison with zero,
  sums and division, so `ℚ` is a faithful model of the branching and
  averaging behaviour.
* The TextBlob sentiment scorer is a third-party dependency, not part of
  the repository; following the spec it is treated as a pluggable scoring
  capability and passed as a function argument.
-/

namespace SentimentDash

/-! ## Character classes of the four regex patterns in `preprocess_text` -/

/-- The class `[A-Za-z]`: ASCII letters. -/
def isAsciiAlpha (c : Char) : Bool :=
  (65 ≤ c.toNat && c.toNat ≤ 90) || (97 ≤ c.toNat && c.toNat ≤ 122)

/-- Lowercase ASCII letters `[a-z]`. -/
def isLowerAlpha (c : Char) : Bool :=
  97 ≤ c.toNat && c.toNat ≤ 122

/-- The class `[0-9]`. -/
def isAsciiDigit (c : Char) : Bool :=
  48 ≤ c.toNat && c.toNat ≤ 57

/-- The class `[A-Za-z0-9_]` used by the mention and hashtag patterns. -/
def isWordChar (c : Char) : Bool :=
  isAsciiAlpha c || isAsciiDigit c || c == '_'

/-- The class `[A-Za-z0-9./]` used by the URL pattern. -/
def isUrlChar (c : Char) : Bool :=
  isAsciiAlpha c || isAsciiDigit c || c == '.' || c == '/'

/-- Python's `\s` for `str` patterns (and the default strip set of
`str.strip()`): ASCII whitespace `\t\n\v\f\r` and space, the file and
record separators, NEL, NBSP and the Unicode space characters. -/
def pyIsSpace (c : Char) : Bool :=
  c.toNat == 9 || c.toNat == 10 || c.toNat == 11 || c.toNat == 12 ||
  c.toNat == 13 || c.toNat == 32 || c.toNat == 28 || c.toNat == 29 ||
  c.toNat == 30 || c.toNat == 31 || c.toNat == 133 || c.toNat == 160 ||
  c.toNat == 5760 || (8192 ≤ c.toNat && c.toNat ≤ 8202) ||
  c.toNat == 8232 || c.toNat == 8233 || c.toNat == 8239 ||
  c.toNat == 8287 || c.toNat == 12288

/-- Does the list start with a character satisfying `p`?  Used for the
one-character lookahead that decides whether `@`/`#` begins a match of
`@[A-Za-z0-9_]+` resp. `#[A-Za-z0-9_]+` (the `+` requires at least one
class character after the trigger). -/
def headSat (p : Char → Bool) : List Char → Bool
  | [] => false
  | d :: _ => p d

/-- Left-to-right scanner implementing
`re.sub(trig ++ "[class]+", "", s)` for a one-character trigger `trig`
followed by one or more characters of the class `p` (the mention pattern
`@[A-Za-z0-9_]+` and the hashtag pattern `#[A-Za-z0-9_]+` of
`preprocess_text`).  The boolean state records whether the scanner is
currently inside the greedy `[class]+` run of a match being deleted. -/
def subTokAux (trig : Char) (p : Char → Bool) : Bool → List Char → List Char
  | _, [] => []
  | b, c :: cs =>
    if b && p c then subTokAux trig p true cs
    else if c == trig && headSat p cs then subTokAux trig p true cs
    else c :: subTokAux trig p false cs

/-- `re.sub(r'@[A-Za-z0-9_]+', '', text)` — line 23 of `app.py`. -/
def removeMentions (l : List Char) : List Char :=
  subTokAux '@' isWordChar false l

/-- `re.sub(r'#[A-Za-z0-9_]+', '', text)` — line 24 of `app.py`. -/
def removeHashtags (l : List Char) : List Char :=
  subTokAux '#' isWordChar false l

/-- Left-to-right scanner implementing
`re.sub(r'https?://[A-Za-z0-9./]+', '', text)` — line 25 of `app.py`.
The boolean state records whether the scanner is inside the greedy
`[A-Za-z0-9./]+` run of a match being deleted; a match requires the
literal prefix `http://` or `https://` followed by at least one class
character. -/
def subUrlAux : Bool → List Char → List Char
  | _, [] => []
  | b, c :: cs =>
    if b && isUrlChar c then subUrlAux true cs
    else
      match c, cs with
      | 'h', 't' :: 't' :: 'p' :: 's' :: ':' :: '/' :: '/' :: d :: rest =>
        if isUrlChar d then subUrlAux true rest
        else 'h' :: 't' :: 't' :: 'p' :: 's' :: ':' :: '/' :: '/' :: d :: subUrlAux false rest
      | 'h', 't' :: 't' :: 'p' :: ':' :: '/' :: '/' :: d :: rest =>
        if isUrlChar d then subUrlAux true rest
        else 'h' :: 't' :: 't' :: 'p' :: ':' :: '/' :: '/' :: d :: subUrlAux false rest
      | c, cs => c :: subUrlAux false cs

/-- `re.sub(r'https?://[A-Za-z0-9./]+', '', text)` as a function on the
character list. -/
def removeUrls (l : List Char) : List Char :=
  subUrlAux false l

/-- `re.sub(r'[^A-Za-z\s]', '', text)` — line 26 of `app.py`: keep only
ASCII letters and whitespace. -/
def removeSpecial (l : List Char) : List Char :=
  l.filter (fun c => isAsciiAlpha c || pyIsSpace c)

/-- `text.lower()` on the post-`removeSpecial` alphabet (ASCII letters and
whitespace), where Python's `str.lower` and `Char.toLower` agree. -/
def lowerAll (l : List Char) : List Char :=
  l.map Char.toLower

/-- Python `str.strip()`: drop leading and trailing whitespace. -/
def pyStrip (l : List Char) : List Char :=
  (((l.dropWhile pyIsSpace).reverse.dropWhile pyIsSpace)).reverse

/-- `preprocess_text` — lines 21–28 of `app.py`: remove mentions, then
hashtags, then URLs, then every character that is not an ASCII letter or
whitespace, then lower-case and strip. -/
def preprocess_text (text : String) : String :=
  (pyStrip (lowerAll (removeSpecial (removeUrls
    (removeHashtags (removeMentions text.toList)))))).asString

/-! ## Sentiment classifier (`analyze_sentiment`, lines 33–48 of `app.py`)

The polarity score comes from `TextBlob(cleaned_text).sentiment.polarity`,
a third-party scorer outside the repository; per the spec it is a
pluggable scoring capability `score(text) -> float`, passed here as a
function argument. -/

/-- `analyze_sentiment` — lines 33–48 of `app.py`: preprocess, score,
then classify `Positive` iff the polarity is strictly greater than zero,
with the matching emoji. -/
def analyze_sentiment (score : String → ℚ) (text : String) :
    ℚ × String × String :=
  let cleaned := preprocess_text text
  let polarity := score cleaned
  if polarity > 0 then (polarity, "Positive", "😊")
  else (polarity, "Negative", "😠")

/-- Modelled from the spec: the error kind `ScoringUnavailable` of §7 —
the scorer dependency being missing or broken.  The repository's code
has no handler for it (the TextBlob call is not wrapped), so it would
propagate; no such error type exists in `src/app.py` itself. -/
inductive ScoringError
  | ScoringUnavailable

/-- Modelled from the spec: `analyze_sentiment` over a fallible scorer.
The classification logic is that of lines 33–48 of `app.py`; the scorer
may fail with `ScoringUnavailable`, and since the code installs no
handler, the failure propagates instead of defaulting to a label. -/
def analyze_sentimentE (score : String → Except ScoringError ℚ)
    (text : String) : Except ScoringError (ℚ × String × String) :=
  match score (preprocess_text text) with
  | .error e => .error e
  | .ok polarity =>
    .ok (if polarity > 0 then (polarity, "Positive", "😊")
         else (polarity, "Negative", "😠"))

/-! ## Aggregation store (session state, lines 77–84 and 145–148) -/

/-- One row of `st.session_state.data` (columns fixed at line 78). -/
structure Record where
  time : Nat
  text : String
  sentiment_score : ℚ
  sentiment : String
  sentiment_emoji : String

/-- The session state initialised at lines 77–84 of `app.py`:
the record log `data`, the `last_update` timestamp, the `running`
flag and the stored `keyword`. -/
structure SessionState where
  data : List Record
  last_update : Nat
  running : Bool
  keyword : String

/-- Line 146: `len(data[data["sentiment"] == "Positive"])`. -/
def positiveCount (data : List Record) : Nat :=
  (data.filter (fun r => r.sentiment == "Positive")).length

/-- Line 147: `len(data[data["sentiment"] == "Negative"])`. -/
def negativeCount (data : List Record) : Nat :=
  (data.filter (fun r => r.sentiment == "Negative")).length

/-- Line 148: `len(data)`. -/
def totalCount (data : List Record) : Nat :=
  data.length

/-- The `counts()` view of the spec: the three metrics of lines 146–148
as a triple (#Positive, #Negative, total). -/
def counts (data : List Record) : Nat × Nat × Nat :=
  (positiveCount data, negativeCount data, totalCount data)

/-- The `Clear Data` button, lines 102–104 of `app.py`: replace
`st.session_state.data` with an empty frame, touching nothing else. -/
def clearData (s : SessionState) : SessionState :=
  { s with data := [] }

/-! ## Rolling average (line 166 of `app.py`)

`chart_data["sentiment_score"].rolling(window=3, min_periods=1).mean()`.
Modelled from the spec: the pandas `rolling` implementation is library
code outside the repository; §4.3 of the spec defines
`rollingAverage(windowSize)` as, for each position `i`, the mean of the
polarity over positions `[max(0, i-windowSize+1), i]`, at least one
point.  The definitions below implement that as a left-to-right sweep
holding the list of already-seen scores. -/

/-- The last `w` elements of the already-seen prefix (all of it when it
is shorter than `w`). -/
def windowSlice (w : Nat) (pre : List ℚ) : List ℚ :=
  pre.drop (pre.length - w)

/-- Arithmetic mean of the trailing window of the prefix `pre`. -/
def windowMean (w : Nat) (pre : List ℚ) : ℚ :=
  (windowSlice w pre).sum / ((windowSlice w pre).length : ℚ)

/-- Sweep producing one windowed mean per element; `pre` is the list of
scores already consumed, in arrival order. -/
def rollingGo (w : Nat) (pre : List ℚ) : List ℚ → List ℚ
  | [] => []
  | x :: rest => windowMean w (pre ++ [x]) :: rollingGo w (pre ++ [x]) rest

/-- The `rolling_avg` column of line 166, generalised to a window
size `w` as in §4.3 of the spec (the source fixes `w = 3`,
`min_periods=1`). -/
def rolling_avg (w : Nat) (xs : List ℚ) : List ℚ :=
  rollingGo w [] xs

/-- The `sentiment_score` column of the record log (line 161). -/
def sentimentScores (data : List Record) : List ℚ :=
  data.map (fun r => r.sentiment_score)

/-- A record as produced by the append loop for a positive post. -/
def recP : Record := ⟨0, "good", 1/2, "Positive", "😊"⟩

/-- A record as produced by the append loop for a negative post. -/
def recN : Record := ⟨1, "bad", -(1/2), "Negative", "😠"⟩

/-- A three-record store: two positive posts then a negative one. -/
def exData : List Record := [recP, recP, recN]

/-! ## Lemmas about the rolling-average sweep -/

theorem rollingGo_getD (w : Nat) (pre xs : List ℚ) (i : Nat)
    (hi : i < xs.length) :
    (rollingGo w pre xs).getD i 0 = windowMean w (pre ++ xs.take (i+1)) := by
  induction xs generalizing pre i with
  | nil => exact absurd hi (Nat.not_lt_zero i)
  | cons x rest ih =>
    cases i with
    | zero => simp [rollingGo]
    | succ j =>
      have hj : j < rest.length := by
        simpa [Nat.succ_lt_succ_iff] using hi
      simp only [rollingGo, List.getD_cons_succ]
      rw [ih (pre ++ [x]) j hj, List.append_assoc]
      rfl

theorem rolling_avg_getD (w : Nat) (xs : List ℚ) (i : Nat)
    (hi : i < xs.length) :
    (rolling_avg w xs).getD i 0 = windowMean w (xs.take (i+1)) := by
  simpa using rollingGo_getD w [] xs i hi

/-- Closed form of the rolling average: position `i` holds the mean of
the scores at positions `max (0, i-w+1)` through `i` (here `i+1-w` in
truncated subtraction). -/
theorem rolling_avg_spec (w : Nat) (xs : List ℚ) (i : Nat)
    (hi : i < xs.length) :
    (rolling_avg w xs).getD i 0 =
      ((xs.take (i+1)).drop (i+1-w)).sum /
        (((xs.take (i+1)).drop (i+1-w)).length : ℚ) := by
  rw [rolling_avg_getD w xs i hi]
  unfold windowMean windowSlice
  rw [List.length_take, min_eq_left (by omega)]

theorem rolling_avg_getD_zero (w : Nat) (xs : List ℚ) (hw : 1 ≤ w)
    (h0 : 0 < xs.length) :
    (rolling_avg w xs).getD 0 0 = xs.getD 0 0 := by
  cases xs with
  | nil => exact absurd h0 (Nat.not_lt_zero 0)
  | cons y ys =>
    rw [rolling_avg_spec w _ 0 h0]
    have h1w : 1 - w = 0 := by omega
    simp [h1w]

theorem getD_drop_q (xs : List ℚ) (k n : Nat) (h : k + n < xs.length) :
    (xs.drop k).getD n 0 = xs.getD (k+n) 0 := by
  rw [List.getD_eq_getElem _ _ (by rw [List.length_drop]; omega),
      List.getD_eq_getElem _ _ h]
  exact (List.getElem_drop' xs h).symm

/-- The 3-point window of line 166: for `i ≥ 2` the rolling average is
the mean of the scores at `i-2`, `i-1` and `i`. -/
theorem rolling_avg_getD_three (xs : List ℚ) (i : Nat) (h2 : 2 ≤ i)
    (hi : i < xs.length) :
    (rolling_avg 3 xs).getD i 0 =
      (xs.getD (i-2) 0 + xs.getD (i-1) 0 + xs.getD i 0) / 3 := by
  rw [rolling_avg_spec 3 xs i hi]
  have h3 : i + 1 - 3 = i - 2 := by omega
  have hdt : (xs.take (i+1)).drop (i+1-3) = (xs.drop (i-2)).take 3 := by
    rw [h3, List.drop_take]
    congr 1
    omega
  have hlend : 3 ≤ (xs.drop (i-2)).length := by
    rw [List.length_drop]; omega
  rcases hys : xs.drop (i-2) with _ | ⟨a, tl1⟩
  · rw [hys] at hlend; exact absurd hlend (by norm_num)
  rcases tl1 with _ | ⟨b, tl2⟩
  · rw [hys] at hlend; exact absurd hlend (by norm_num [List.length_cons])
  rcases tl2 with _ | ⟨c, tl3⟩
  · rw [hys] at hlend; exact absurd hlend (by norm_num [List.length_cons])
  have ha : xs.getD (i-2) 0 = a := by
    have := getD_drop_q xs (i-2) 0 (by omega)
    rw [hys] at this
    simpa using this.symm
  have hb : xs.getD (i-1) 0 = b := by
    have := getD_drop_q xs (i-2) 1 (by omega)
    rw [hys, show i-2+1 = i-1 from by omega] at this
    simpa using this.symm
  have hc : xs.getD i 0 = c := by
    have := getD_drop_q xs (i-2) 2 (by omega)
    rw [hys, show i-2+2 = i from by omega] at this
    simpa using this.symm
  rw [hdt, hys, ha, hb, hc]
  norm_num
  ring

/-- C2: for every sequence of appended records and every window size
`w ≥ 1`, the rolling average at position `i` is the arithmetic mean of
the `sentiment_score` values at positions `max (0, i-w+1)` (written
`i+1-w` in truncated subtraction) through `i` in arrival order; at
position 0 it is the score of record 0, and with window 3 at `i ≥ 2`
it is the mean of the scores at `i-2`, `i-1` and `i`. -/
theorem C2_rolling_average (data : List Record) (w i : Nat) (hw : 1 ≤ w)
    (hi : i < data.length) :
    ((rolling_avg w (sentimentScores data)).getD i 0 =
      (((sentimentScores data).take (i+1)).drop (i+1-w)).sum /
        ((((sentimentScores data).take (i+1)).drop (i+1-w)).length : ℚ)) ∧
    ((rolling_avg w (sentimentScores data)).getD 0 0 =
      (sentimentScores data).getD 0 0) ∧
    (2 ≤ i → (rolling_avg 3 (sentimentScores data)).getD i 0 =
      ((sentimentScores data).getD (i-2) 0 + (sentimentScores data).getD (i-1) 0 +
        (sentimentScores data).getD i 0) / 3) := by
  have hi' : i < (sentimentScores data).length := by
    rw [sentimentScores, List.length_map]; exact hi
  exact ⟨rolling_avg_spec w _ i hi',
    rolling_avg_getD_zero w _ hw (by omega),
    fun h2 => rolling_avg_getD_three _ i h2 hi'⟩

/-- Non-vacuity witness for C2 at the concrete three-record store
`exData` with window 3 and position 2. -/
theorem C2_rolling_average_witness :
    ((rolling_avg 3 (sentimentScores exData)).getD 2 0 =
      (((sentimentScores exData).take (2+1)).drop (2+1-3)).sum /
        ((((sentimentScores exData).take (2+1)).drop (2+1-3)).length : ℚ)) ∧
    ((rolling_avg 3 (sentimentScores exData)).getD 0 0 =
      (sentimentScores exData).getD 0 0) ∧
    (2 ≤ 2 → (rolling_avg 3 (sentimentScores exData)).getD 2 0 =
      ((sentimentScores exData).getD (2-2) 0 + (sentimentScores exData).getD (2-1) 0 +
        (sentimentScores exData).getD 2 0) / 3) :=
  C2_rolling_average exData 3 2 (by norm_num) (by norm_num [exData])

/-! ## C1: two-bucket classification -/

/-- C1: for every scorer and input text, the classifier's label is
either `"Positive"` or `"Negative"` and never a third value; the label
is `"Positive"` iff the returned polarity is strictly positive, and a
polarity of exactly 0 yields `"Negative"`. -/
theorem C1_two_bucket_classification (score : String → ℚ) (text : String) :
    ((analyze_sentiment score text).2.1 = "Positive" ∨
      (analyze_sentiment score text).2.1 = "Negative") ∧
    ((analyze_sentiment score text).2.1 = "Positive" ↔
      0 < (analyze_sentiment score text).1) ∧
    ((analyze_sentiment score text).1 = 0 →
      (analyze_sentiment score text).2.1 = "Negative") := by
  simp only [analyze_sentiment]
  split_ifs with h <;> dsimp only
  · exact ⟨Or.inl rfl, ⟨fun _ => h, fun _ => rfl⟩,
      fun h0 => absurd h (by rw [h0]; exact lt_irrefl 0)⟩
  · exact ⟨Or.inr rfl, ⟨fun hc => absurd hc (by decide), fun hp => absurd hp h⟩,
      fun _ => rfl⟩

/-! ## C3: the normalizer on the spec's worked example -/

/-- C3 counterexample: on the spec's example input the normalizer does
NOT return `"i love  check  "` — the final `strip()` of line 27 removes
the trailing whitespace the spec example shows. -/
theorem C3_example_counterexample :
    preprocess_text "I LOVE @brand! Check http://x.co #great" ≠
      "i love  check  " := by decide

/-- C3 amended: the normalizer on the spec's example input returns
`"i love  check"` — mention, hashtag and URL removed, punctuation
stripped, case folded, with the two internal double spaces but with the
trailing whitespace stripped by `strip()`. -/
theorem C3_example_amended :
    preprocess_text "I LOVE @brand! Check http://x.co #great" =
      "i love  check" := by decide

/-! ## C6: counts after appending k positive and m negative records -/

theorem total_eq_pos_add_neg (data : List Record)
    (hlab : ∀ r ∈ data, r.sentiment = "Positive" ∨ r.sentiment = "Negative") :
    totalCount data = positiveCount data + negativeCount data := by
  induction data with
  | nil => rfl
  | cons r rs ih =>
    have hr := hlab r (List.mem_cons_self r rs)
    have ih' := ih (fun d hd => hlab d (List.mem_cons_of_mem r hd))
    unfold totalCount positiveCount negativeCount at ih' ⊢
    rcases hr with h | h <;>
      simp [List.filter_cons, h] <;> omega

/-- C6: a store holding `k` records labeled `"Positive"` and `m`
labeled `"Negative"` (every record one of the two, in any interleaving)
has `counts` exactly `(k, m, k+m)`. -/
theorem C6_counts_after_appends (data : List Record) (k m : Nat)
    (hlab : ∀ r ∈ data, r.sentiment = "Positive" ∨ r.sentiment = "Negative")
    (hk : positiveCount data = k) (hm : negativeCount data = m) :
    counts data = (k, m, k + m) := by
  unfold counts
  rw [total_eq_pos_add_neg data hlab, hk, hm]

/-- Non-vacuity witness for C6: two positive and one negative record
give counts `(2, 1, 3)` — the spec's worked example. -/
theorem C6_counts_witness : counts exData = (2, 1, 3) :=
  C6_counts_after_appends exData 2 1 (by decide) (by decide) (by decide)

/-! ## C7: the normalizer is exactly the six-step pipeline -/

/-- C7: `preprocess_text` performs exactly, and in this order: mention
removal, hashtag removal, URL removal, removal of every character that
is not an ASCII letter or whitespace, lower-casing, and trimming; and
the URL pattern is narrow — on `http://x.co?q=1` it removes only
`http://x.co`, leaving the query string behind. -/
theorem C7_normalizer_pipeline :
    (∀ s : String, (preprocess_text s).toList =
      pyStrip (lowerAll (removeSpecial (removeUrls
        (removeHashtags (removeMentions s.toList)))))) ∧
    removeUrls "http://x.co?q=1".toList = "?q=1".toList ∧
    removeUrls "Check https://a.b/c now".toList = "Check  now".toList :=
  ⟨fun _ => rfl, by decide, by decide⟩

/-! ## C8 and C10: the clear action -/

/-- C8: clearing the store and then reading the three metrics gives
`(0, 0, 0)` for every prior session state. -/
theorem C8_clear_then_counts (s : SessionState) :
    counts (clearData s).data = (0, 0, 0) := rfl

/-- C10: `clearData` mutates only the record log — the `running` flag,
the stored `keyword` and the `last_update` timestamp are unchanged,
while the log itself becomes empty. -/
theorem C10_clear_frame (s : SessionState) :
    (clearData s).running = s.running ∧
    (clearData s).keyword = s.keyword ∧
    (clearData s).last_update = s.last_update ∧
    (clearData s).data = [] :=
  ⟨rfl, rfl, rfl, rfl⟩

/-! ## C5: scorer failure propagation and totality on all inputs -/

/-- C5: if the scorer is unavailable the classifier fails with
`ScoringUnavailable` instead of silently defaulting to a label; with a
total scorer every input — the empty string included — yields a valid
(polarity, label) pair whose label is two-valued; and empty input,
scored at or below zero by the underlying scorer, is classified
`"Negative"`. -/
theorem C5_error_handling (score : String → Except ScoringError ℚ)
    (text : String) :
    ((∀ s, score s = .error .ScoringUnavailable) →
      analyze_sentimentE score text = .error .ScoringUnavailable) ∧
    ((∀ s, ∃ q, score s = .ok q) →
      ∃ p lab em, analyze_sentimentE score text = .ok (p, lab, em) ∧
        (lab = "Positive" ∨ lab = "Negative")) ∧
    (∀ q : ℚ, q ≤ 0 → score "" = .ok q →
      analyze_sentimentE score "" = .ok (q, "Negative", "😠")) := by
  refine ⟨fun hfail => ?_, fun htot => ?_, fun q hq hok => ?_⟩
  · unfold analyze_sentimentE
    rw [hfail]
  · obtain ⟨q, hq⟩ := htot (preprocess_text text)
    unfold analyze_sentimentE
    rw [hq]
    by_cases h : q > 0
    · exact ⟨q, "Positive", "😊", by dsimp only; rw [if_pos h], Or.inl rfl⟩
    · exact ⟨q, "Negative", "😠", by dsimp only; rw [if_neg h], Or.inr rfl⟩
  · unfold analyze_sentimentE
    rw [show preprocess_text "" = "" from rfl, hok]
    dsimp only
    rw [if_neg (not_lt.mpr hq)]

/-- Non-vacuity witness for C5: a concrete unavailable scorer makes the
classification fail with `ScoringUnavailable`, and a concrete total
scorer giving 0 classifies the empty input as `"Negative"`. -/
theorem C5_error_handling_witness :
    analyze_sentimentE (fun _ => .error .ScoringUnavailable) "x" =
      .error .ScoringUnavailable ∧
    analyze_sentimentE (fun _ => .ok 0) "" = .ok (0, "Negative", "😠") :=
  ⟨(C5_error_handling (fun _ => .error .ScoringUnavailable) "x").1
      (fun _ => rfl),
   (C5_error_handling (fun _ => .ok 0) "").2.2 0 le_rfl rfl⟩

/-! ## Character-level lemmas for the normalizer invariants -/

theorem char_ofNat_toNat (n : Nat) (h : n.isValidChar) :
    (Char.ofNat n).toNat = n := by
  unfold Char.ofNat
  rw [dif_pos h]
  unfold Char.ofNatAux Char.toNat
  simp [UInt32.toNat, UInt32.ofNatTruncate]

theorem toLower_toNat_of_upper (c : Char) (h1 : 65 ≤ c.toNat)
    (h2 : c.toNat ≤ 90) : (Char.toLower c).toNat = c.toNat + 32 := by
  simp only [Char.toLower]
  rw [if_pos ⟨h1, h2⟩]
  exact char_ofNat_toNat _ (Or.inl (by omega))

theorem toLower_eq_self_of_not_upper (c : Char)
    (h : ¬(65 ≤ c.toNat ∧ c.toNat ≤ 90)) : Char.toLower c = c := by
  simp only [Char.toLower]
  rw [if_neg h]

/-- Characters kept by `removeSpecial` become, after lower-casing,
lowercase letters or whitespace. -/
theorem goodChar_after_lower (c : Char)
    (h : (isAsciiAlpha c || pyIsSpace c) = true) :
    (isLowerAlpha (Char.toLower c) || pyIsSpace (Char.toLower c)) = true := by
  by_cases hu : 65 ≤ c.toNat ∧ c.toNat ≤ 90
  · have ht := toLower_toNat_of_upper c hu.1 hu.2
    have hlo : isLowerAlpha (Char.toLower c) = true := by
      unfold isLowerAlpha
      rw [ht]
      simp
      omega
    simp [hlo]
  · rw [toLower_eq_self_of_not_upper c hu]
    have h' : isAsciiAlpha c = true ∨ pyIsSpace c = true := by simpa using h
    rcases h' with ha | hs
    · unfold isAsciiAlpha at ha
      unfold isLowerAlpha
      simp at ha ⊢
      omega
    · simp [hs]

theorem pyStrip_subset (l : List Char) : ∀ c ∈ pyStrip l, c ∈ l := by
  intro c hc
  unfold pyStrip at hc
  rw [List.mem_reverse] at hc
  have h2 : c ∈ (l.dropWhile pyIsSpace).reverse :=
    (List.dropWhile_sublist pyIsSpace).subset hc
  rw [List.mem_reverse] at h2
  exact (List.dropWhile_sublist pyIsSpace).subset h2

/-- Every character of the normalizer's output is a lowercase ASCII
letter or a whitespace character. -/
theorem preprocess_text_chars (s : String) :
    ∀ c ∈ (preprocess_text s).toList,
      (isLowerAlpha c || pyIsSpace c) = true := by
  intro c hc
  have hc1 : c ∈ lowerAll (removeSpecial (removeUrls
      (removeHashtags (removeMentions s.toList)))) :=
    pyStrip_subset _ c hc
  obtain ⟨a, ha, rfl⟩ := List.mem_map.mp hc1
  exact goodChar_after_lower a (List.mem_filter.mp ha).2

theorem dropWhile_head_false (p : Char → Bool) (l : List Char) (c : Char)
    (h : (l.dropWhile p).head? = some c) : p c = false := by
  have h2 := List.head?_dropWhile_not p l
  rw [h] at h2
  exact h2

theorem pyStrip_getLast (l : List Char) (c : Char)
    (h : (pyStrip l).getLast? = some c) : pyIsSpace c = false := by
  unfold pyStrip at h
  rw [List.getLast?_reverse] at h
  exact dropWhile_head_false _ _ _ h

theorem pyStrip_head (l : List Char) (c : Char)
    (h : (pyStrip l).head? = some c) : pyIsSpace c = false := by
  unfold pyStrip at h
  rw [List.head?_reverse] at h
  obtain ⟨t, ht⟩ :=
    List.dropWhile_suffix (l := (l.dropWhile pyIsSpace).reverse) pyIsSpace
  have hm : ((l.dropWhile pyIsSpace).reverse).getLast? = some c := by
    rw [← ht, List.getLast?_append, h]
    rfl
  rw [List.getLast?_reverse] at hm
  exact dropWhile_head_false _ _ _ hm

/-! ## C9: alphabet of the normalizer's output -/

/-- C9: for every input string, the normalizer's output consists only
of lowercase ASCII letters and whitespace characters, and carries no
leading or trailing whitespace. -/
theorem C9_output_alphabet (s : String) :
    (∀ c ∈ (preprocess_text s).toList,
      (isLowerAlpha c || pyIsSpace c) = true) ∧
    (∀ c, (preprocess_text s).toList.head? = some c → pyIsSpace c = false) ∧
    (∀ c, (preprocess_text s).toList.getLast? = some c →
      pyIsSpace c = false) :=
  ⟨preprocess_text_chars s, fun c h => pyStrip_head _ c h,
    fun c h => pyStrip_getLast _ c h⟩

/-- Non-vacuity witness for C9 on the input `"Hi!"` (output `"hi"`). -/
theorem C9_output_alphabet_witness :
    (isLowerAlpha 'h' || pyIsSpace 'h') = true ∧
    pyIsSpace 'h' = false ∧ pyIsSpace 'i' = false :=
  ⟨(C9_output_alphabet "Hi!").1 'h' (by decide),
   (C9_output_alphabet "Hi!").2.1 'h' (by decide),
   (C9_output_alphabet "Hi!").2.2 'i' (by decide)⟩

/-! ## C4: idempotence of the normalizer

On a string of lowercase letters and whitespace with stripped ends —
the shape of every normalizer output — each of the six steps is the
identity, so a second normalization changes nothing. -/

theorem good_ne_special (c : Char)
    (h : (isLowerAlpha c || pyIsSpace c) = true) :
    c ≠ '@' ∧ c ≠ '#' ∧ c ≠ ':' := by
  refine ⟨?_, ?_, ?_⟩ <;> rintro rfl <;> exact absurd h (by decide)

theorem good_keep (c : Char)
    (h : (isLowerAlpha c || pyIsSpace c) = true) :
    (isAsciiAlpha c || pyIsSpace c) = true := by
  have h' : isLowerAlpha c = true ∨ pyIsSpace c = true := by simpa using h
  rcases h' with h1 | h2
  · unfold isLowerAlpha at h1
    unfold isAsciiAlpha
    simp at h1 ⊢
    omega
  · simp [h2]

theorem toLower_fix_good (c : Char)
    (h : (isLowerAlpha c || pyIsSpace c) = true) :
    Char.toLower c = c := by
  apply toLower_eq_self_of_not_upper
  have h' : isLowerAlpha c = true ∨ pyIsSpace c = true := by simpa using h
  rcases h' with h1 | h2
  · unfold isLowerAlpha at h1
    simp at h1
    omega
  · unfold pyIsSpace at h2
    simp at h2
    omega

theorem subTokAux_id (trig : Char) (p : Char → Bool) (l : List Char)
    (h : ∀ c ∈ l, c ≠ trig) : subTokAux trig p false l = l := by
  induction l with
  | nil => rfl
  | cons c cs ih =>
    have hc : (c == trig) = false := by
      simpa using h c (List.mem_cons_self c cs)
    simp [subTokAux, hc,
      ih (fun d hd => h d (List.mem_cons_of_mem c hd))]

theorem subUrlAux_id (l : List Char) (h : ∀ c ∈ l, c ≠ ':') :
    subUrlAux false l = l := by
  induction l with
  | nil => rfl
  | cons c cs ih =>
    have hcs : ∀ d ∈ cs, d ≠ ':' := fun d hd => h d (List.mem_cons_of_mem c hd)
    rw [subUrlAux]
    case x_2 =>
      intro d rest hc hpat
      exact (hcs ':' (by rw [hpat]; simp)) rfl
    case x_3 =>
      intro d rest hc hpat
      exact (hcs ':' (by rw [hpat]; simp)) rfl
    rw [if_neg (by simp), ih hcs]

theorem removeMentions_id (l : List Char)
    (h : ∀ c ∈ l, (isLowerAlpha c || pyIsSpace c) = true) :
    removeMentions l = l :=
  subTokAux_id '@' isWordChar l (fun c hc => (good_ne_special c (h c hc)).1)

theorem removeHashtags_id (l : List Char)
    (h : ∀ c ∈ l, (isLowerAlpha c || pyIsSpace c) = true) :
    removeHashtags l = l :=
  subTokAux_id '#' isWordChar l (fun c hc => (good_ne_special c (h c hc)).2.1)

theorem removeUrls_id (l : List Char)
    (h : ∀ c ∈ l, (isLowerAlpha c || pyIsSpace c) = true) :
    removeUrls l = l :=
  subUrlAux_id l (fun c hc => (good_ne_special c (h c hc)).2.2)

theorem removeSpecial_id (l : List Char)
    (h : ∀ c ∈ l, (isLowerAlpha c || pyIsSpace c) = true) :
    removeSpecial l = l :=
  List.filter_eq_self.mpr (fun a ha => good_keep a (h a ha))

theorem lowerAll_id (l : List Char)
    (h : ∀ c ∈ l, (isLowerAlpha c || pyIsSpace c) = true) :
    lowerAll l = l := by
  unfold lowerAll
  have he : ∀ a ∈ l, Char.toLower a = id a :=
    fun a ha => toLower_fix_good a (h a ha)
  rw [List.map_congr_left he, List.map_id]

theorem dropWhile_id_of_head (p : Char → Bool) (l : List Char)
    (h : ∀ c, l.head? = some c → p c = false) :
    l.dropWhile p = l := by
  cases l with
  | nil => rfl
  | cons c cs =>
    have hc := h c rfl
    rw [List.dropWhile_cons, if_neg (by simp [hc])]

theorem pyStrip_id (l : List Char)
    (hh : ∀ c, l.head? = some c → pyIsSpace c = false)
    (hl : ∀ c, l.getLast? = some c → pyIsSpace c = false) :
    pyStrip l = l := by
  unfold pyStrip
  rw [dropWhile_id_of_head _ _ hh]
  rw [dropWhile_id_of_head _ _
    (fun c hc => hl c (by rwa [List.head?_reverse] at hc))]
  exact List.reverse_reverse l

/-- C4: the normalizer is idempotent — normalizing an already-normalized
string changes nothing. -/
theorem C4_normalizer_idempotent (x : String) :
    preprocess_text (preprocess_text x) = preprocess_text x := by
  have hg := preprocess_text_chars x
  have hh : ∀ c, (preprocess_text x).toList.head? = some c →
      pyIsSpace c = false := fun c h => pyStrip_head _ c h
  have hl : ∀ c, (preprocess_text x).toList.getLast? = some c →
      pyIsSpace c = false := fun c h => pyStrip_getLast _ c h
  show (pyStrip (lowerAll (removeSpecial (removeUrls (removeHashtags
    (removeMentions (preprocess_text x).toList)))))).asString =
    preprocess_text x
  rw [removeMentions_id _ hg, removeHashtags_id _ hg, removeUrls_id _ hg,
    removeSpecial_id _ hg, lowerAll_id _ hg, pyStrip_id _ hh hl]
  rfl

end SentimentDash

